import Mathlib

/-!
Shallow embedding of the MCP protocol core of `bjkemp/mcp-cli`:
the message codec (`src/mcp/messages/json_rpc_message.py`), the protocol
validator (`src/mcp/validation/protocol_validator.py`), the line-framed
stdio transport (`src/mcp/transport/stdio/stdio_transport.py`), and the
standard protocol client (`src/mcp/client/standard_protocol_client.py`).

JSON values appearing in envelopes are modelled by the inductive `Json`
below; JSON numbers are restricted to integers (the protocol's ids and
error codes are integers, which covers every behaviour verified here).
Python dictionaries are modelled as association lists looked up by first
occurrence; `json.loads` of one wire line is abstracted by the `Line`
type, which records either the parsed JSON value or that the line failed
to decode (`json.JSONDecodeError`).
-/

/-- A JSON value as produced by `json.loads`, with numbers restricted to
integers. -/
inductive Json where
  | null
  | bool (b : Bool)
  | int (n : Int)
  | str (s : String)
  | arr (elems : List Json)
  | obj (fields : List (String × Json))

/-- Python `d[k]` / `d.get(k)` on a dict modelled as an association list:
the value at the first occurrence of key `k`, if any. -/
def dictGet (fields : List (String × Json)) (k : String) : Option Json :=
  match fields with
  | [] => none
  | (k', v) :: rest => if k' == k then some v else dictGet rest k

/-- Python `k in d` for a dict. -/
def dictHas (fields : List (String × Json)) (k : String) : Bool :=
  (dictGet fields k).isSome

/-- Python `isinstance(v, str)`. -/
def isStr : Json → Bool
  | .str _ => true
  | _ => false

/-- Python `isinstance(v, dict)`. -/
def isDict : Json → Bool
  | .obj _ => true
  | _ => false

/-- Python `isinstance(v, int)`.  In Python `bool` is a subclass of `int`,
so booleans satisfy this check as well. -/
def isIntLike : Json → Bool
  | .int _ => true
  | .bool _ => true
  | _ => false

/-- Python `isinstance(v, (str, int))` (again, booleans count as ints). -/
def isStrOrInt (v : Json) : Bool :=
  isStr v || isIntLike v

/-- Python `isinstance(v, bool)` (exactly the two booleans). -/
def isBool : Json → Bool
  | .bool _ => true
  | _ => false

/-- Python `v == s` for a string literal `s`: true exactly when `v` is the
same string (a non-string JSON value never equals a `str`). -/
def pyEqStr (v : Json) (s : String) : Bool :=
  match v with
  | .str t => t == s
  | _ => false

/-- Python `v == n` for an integer `n`: integers compare by value and a
Python `bool` equals its integer value (`True == 1`); every other JSON
value is unequal to an integer. -/
def pyEqInt (v : Json) (n : Int) : Bool :=
  match v with
  | .int m => m == n
  | .bool b => (if b then (1 : Int) else 0) == n
  | _ => false

/-- Python truthiness of a JSON value (`bool(v)`): `None`, `False`, `0`,
`""`, `[]` and `\x7b\x7d` are falsy, everything else truthy. -/
def truthy : Json → Bool
  | .null => false
  | .bool b => b
  | .int n => n != 0
  | .str s => s != ""
  | .arr elems => !elems.isEmpty
  | .obj fields => !fields.isEmpty

/-! ## Protocol validator (`src/mcp/validation/protocol_validator.py`) -/

/-- Model of `ProtocolValidator.validate_request`: the chain of checks of the
source, in source order, returning the first failing check's message and
`none` when every check passes. -/
def validate_request (request : List (String × Json)) : Option String :=
  match dictGet request "jsonrpc" with
  | none => some "Missing required field: \x27jsonrpc\x27"
  | some ver =>
    if !(pyEqStr ver "2.0") then
      some "Invalid \x27jsonrpc\x27 value: must be \x272.0\x27"
    else
      match dictGet request "method" with
      | none => some "Missing required field: \x27method\x27"
      | some m =>
        if !(isStr m) then
          some "Invalid \x27method\x27 type: must be a string"
        else
          match dictGet request "params" with
          | none => some "Missing required field: \x27params\x27"
          | some p =>
            if !(isDict p) then
              some "Invalid \x27params\x27 type: must be an object"
            else
              match dictGet request "id" with
              | none => some "Missing required field: \x27id\x27"
              | some i =>
                if !(isStrOrInt i) then
                  some "Invalid \x27id\x27 type: must be a string or number"
                else
                  none

/-- Python `v is None or isinstance(v, (str, int))` used for response ids
(the source accepts string, integer, or null ids on responses). -/
def isStrIntOrNull (v : Json) : Bool :=
  isStrOrInt v || (match v with | .null => true | _ => false)

/-- The final `partial` field check of `validate_response`, reached by both
the error-envelope and the result-envelope paths. -/
def validateResponseTail (response : List (String × Json)) : Option String :=
  match dictGet response "partial" with
  | some p =>
    if !(isBool p) then some "Invalid \x27partial\x27 type: must be a boolean"
    else none
  | none => none

/-- Model of `ProtocolValidator.validate_response`: source-order chain of checks. -/
def validate_response (response : List (String × Json)) : Option String :=
  match dictGet response "jsonrpc" with
  | none => some "Missing required field: \x27jsonrpc\x27"
  | some ver =>
    if !(pyEqStr ver "2.0") then
      some "Invalid \x27jsonrpc\x27 value: must be \x272.0\x27"
    else
      match dictGet response "id" with
      | none => some "Missing required field: \x27id\x27"
      | some i =>
        if !(isStrIntOrNull i) then
          some "Invalid \x27id\x27 type: must be a string, number, or null"
        else
          if !(dictHas response "result") && !(dictHas response "error") then
            some "Missing required field: either \x27result\x27 or \x27error\x27 must be present"
          else
            if dictHas response "error" && dictHas response "result" then
              some "Invalid response: cannot have both \x27result\x27 and \x27error\x27"
            else
              match dictGet response "error" with
              | some err =>
                match err with
                | .obj errFields =>
                  match dictGet errFields "code" with
                  | none => some "Missing required field in error: \x27code\x27"
                  | some c =>
                    if !(isIntLike c) then
                      some "Invalid error \x27code\x27 type: must be a number"
                    else
                      match dictGet errFields "message" with
                      | none => some "Missing required field in error: \x27message\x27"
                      | some m =>
                        if !(isStr m) then
                          some "Invalid error \x27message\x27 type: must be a string"
                        else
                          validateResponseTail response
                | _ => some "Invalid \x27error\x27 type: must be an object"
              | none => validateResponseTail response

/-! ## Error codes (`src/mcp/messages/error_codes.py`) -/

namespace ErrorCodes

def INVALID_TOOL : Int := 1100

def TOOL_EXECUTION_FAILED : Int := 1101

def PROMPT_NOT_FOUND : Int := 1201

def RESOURCE_NOT_FOUND : Int := 1301

end ErrorCodes

/-! ## Message codec (`src/mcp/messages/json_rpc_message.py`) -/

/-- The envelope dict literal built by `create_request` before validation. -/
def requestEnvelope (method : Json) (params : Json) (request_id : Json) :
    List (String × Json) :=
  [("jsonrpc", .str "2.0"), ("method", method), ("params", params),
   ("id", request_id)]

/-- Model of `create_request(method, params, request_id)`: builds the envelope and
self-validates it, raising `ValueError` (modelled as `.error`) when
`validate_request` reports a problem.  The source annotates `method : str`
etc., but Python does not enforce type hints, so the model takes arbitrary
JSON values. -/
def create_request (method : Json) (params : Json) (request_id : Json) :
    Except String (List (String × Json)) :=
  let request := requestEnvelope method params request_id
  match validate_request request with
  | some e => .error ("Invalid request: " ++ e)
  | none => .ok request

/-! ## Line-framed stdio transport
(`src/mcp/transport/stdio/stdio_transport.py`)

One line returned by `reader.readline()` either fails `json.loads` after
stripping (`Line.malformed`, carrying the raw text) or parses to a JSON
value (`Line.parsed`).  End of stream (`readline` returning the empty
bytestring) is modelled by running off the end of the line list. -/

inductive Line where
  | malformed (raw : String)
  | parsed (j : Json)

/-- Mutable state of one `StdioTransport` instance: whether both
`self.writer` and `self.reader` are set, the `self.request_id` counter
(initialised to 0), and the sequence of request ids written to the wire so
far (the model's record of every envelope the instance ever sent). -/
structure TransportState where
  connected : Bool
  request_id : Nat
  wire : List Nat

/-- A freshly constructed `StdioTransport`: no reader/writer, counter 0,
nothing written. -/
def TransportState.init : TransportState := ⟨false, 0, []⟩

/-- The faults `send_message` can raise as `TransportError`.  The id
mismatch carries the expected id and `response.get("id")`, which the
source interpolates into the message
`Response ID mismatch: expected ..., got ...`. -/
inductive SendErr where
  | notConnected
  | closedByServer
  | invalidJson (raw : String)
  | idMismatch (expected : Nat) (actual : Option Json)
  | wrapped

/-- The correlation check of `send_message` on one parsed response line.
For a JSON object the source raises the id-mismatch `TransportError` when
`id` is absent or unequal to the outstanding request id (Python `==`
semantics, so a boolean id equals its integer value).  A parsed value that
is not a dict makes the membership test or the `response.get("id")` call
raise `TypeError`/`AttributeError`, which the blanket `except` wraps into a
generic `TransportError` (`SendErr.wrapped`). -/
def correlate (request_id : Nat) (j : Json) : Except SendErr Json :=
  match j with
  | .obj fields =>
    match dictGet fields "id" with
    | none => .error (.idMismatch request_id none)
    | some v =>
      if pyEqInt v (request_id : Int) then .ok (.obj fields)
      else .error (.idMismatch request_id (some v))
  | _ => .error .wrapped

/-- The read-and-check phase of `send_message`: exactly one `readline`,
then JSON decoding and the correlation check. -/
def readOneResponse (request_id : Nat) (source : List Line) :
    Except SendErr Json :=
  match source with
  | [] => .error .closedByServer
  | .malformed raw :: _ => .error (.invalidJson raw)
  | .parsed j :: _ => correlate request_id j

/-- Model of `StdioTransport.send_message(method, params)`.  Returns the outcome
(`.ok response` or the raised `TransportError`), the transport state after
the call, and the unread remainder of the source.  The id counter is
incremented before anything else once the connection check passes; the id
is appended to the wire only if `create_request` succeeded (it always does
for a string method, dict params and integer id). -/
def send_message (st : TransportState) (method : String)
    (params : List (String × Json)) (source : List Line) :
    Except SendErr Json × TransportState × List Line :=
  if !st.connected then (.error .notConnected, st, source)
  else
    let rid := st.request_id + 1
    match create_request (.str method) (.obj params) (.int rid) with
    | .error _ => (.error .wrapped, ⟨st.connected, rid, st.wire⟩, source)
    | .ok _ =>
      let st' : TransportState := ⟨st.connected, rid, st.wire ++ [rid]⟩
      (readOneResponse rid source, st', source.drop 1)

/-- Terminality test of the streaming loop: the source breaks out when
`"partial" not in response or not response["partial"]`. -/
def isTerminalResp (fields : List (String × Json)) : Bool :=
  match dictGet fields "partial" with
  | none => true
  | some p => !truthy p

/-- How the streaming generator finished: `completed` covers both receipt
of a terminal envelope and the `break` the source performs when `readline`
reports end of stream; `transportError` is a raised `TransportError`. -/
inductive StreamOutcome where
  | completed
  | transportError (e : SendErr)

/-- Result of driving `send_streaming_message`'s read loop to its end: the
envelopes yielded in order, the number of `readline` calls performed, and
how the loop finished. -/
structure StreamResult where
  yielded : List Json
  reads : Nat
  outcome : StreamOutcome

/-- The read loop of `send_streaming_message`, line by line.  End of
stream breaks out of the loop (the generator completes; no error is
raised).  A line that fails to decode raises `TransportError`.  A parsed
object whose `id` is absent or mismatched is skipped with a logged
warning.  A matching envelope is yielded and the loop stops if the
envelope is terminal.  A parsed non-object makes the membership test or
the logging call raise, wrapped into a generic `TransportError`. -/
def streamLoop (request_id : Nat) : List Line → StreamResult
  | [] => ⟨[], 0, .completed⟩
  | .malformed raw :: _ => ⟨[], 1, .transportError (.invalidJson raw)⟩
  | .parsed j :: rest =>
    match j with
    | .obj fields =>
      match dictGet fields "id" with
      | none =>
        let r := streamLoop request_id rest
        ⟨r.yielded, r.reads + 1, r.outcome⟩
      | some v =>
        if pyEqInt v (request_id : Int) then
          if isTerminalResp fields then ⟨[.obj fields], 1, .completed⟩
          else
            let r := streamLoop request_id rest
            ⟨.obj fields :: r.yielded, r.reads + 1, r.outcome⟩
        else
          let r := streamLoop request_id rest
          ⟨r.yielded, r.reads + 1, r.outcome⟩
    | _ => ⟨[], 1, .transportError .wrapped⟩

/-- Model of `StdioTransport.send_streaming_message(method, params)`, driven to
exhaustion.  The connection check and id allocation mirror
`send_message`; `.error .notConnected` models the `TransportError` raised
before any envelope is yielded. -/
def send_streaming_message (st : TransportState) (method : String)
    (params : List (String × Json)) (source : List Line) :
    Except SendErr StreamResult × TransportState :=
  if !st.connected then (.error .notConnected, st)
  else
    let rid := st.request_id + 1
    match create_request (.str method) (.obj params) (.int rid) with
    | .error _ => (.error .wrapped, ⟨st.connected, rid, st.wire⟩)
    | .ok _ =>
      (.ok (streamLoop rid source), ⟨st.connected, rid, st.wire ++ [rid]⟩)

/-- Model of `StdioTransport.connect()`: on success both pipes are attached; on the
exception path the method returns `False` with the writer still unset, so
the instance stays unusable for sends.  `ok` abstracts whether pipe setup
succeeded. -/
def connect (st : TransportState) (ok : Bool) : TransportState × Bool :=
  if ok then (⟨true, st.request_id, st.wire⟩, true) else (st, false)

/-- Model of `StdioTransport.disconnect()`: closes and clears the writer when one
is set; returns `True` either way (exceptions inside are caught). -/
def disconnect (st : TransportState) : TransportState × Bool :=
  if st.connected then (⟨false, st.request_id, st.wire⟩, true) else (st, true)

/-! ## Event traces over one transport instance

For the id-counter invariant the state-changing entry points of one
`StdioTransport` are replayed as a list of events. -/

/-- One call made on a transport instance: a connect attempt (with its
success flag), a disconnect, a `send_message` (with the source it will
read from), or a fully driven `send_streaming_message`. -/
inductive Ev where
  | connectEv (ok : Bool)
  | disconnectEv
  | sendEv (method : String) (params : List (String × Json)) (source : List Line)
  | streamEv (method : String) (params : List (String × Json)) (source : List Line)

/-- State transition of one event (return values discarded). -/
def stepEv (st : TransportState) : Ev → TransportState
  | .connectEv ok => (connect st ok).1
  | .disconnectEv => (disconnect st).1
  | .sendEv m p src => (send_message st m p src).2.1
  | .streamEv m p src => (send_streaming_message st m p src).2

/-- Replay a list of events from a given state. -/
def runEvs (st : TransportState) : List Ev → TransportState
  | [] => st
  | e :: rest => runEvs (stepEv st e) rest

/-! ## Standard protocol client
(`src/mcp/client/standard_protocol_client.py`) -/

/-- State of one `StandardProtocolClient`: the wrapped transport (plus the
source it reads from) and `self.capabilities` (`None` until a successful
`initialize` stores the server's result). -/
structure ClientState where
  transport : TransportState
  source : List Line
  capabilities : Option Json

/-- The exception raised by `call_tool` (or `.result` on success).
`invalidTool` is `InvalidToolError(tool_name, error.get("data"))`;
`toolExecutionFailed` is `ToolExecutionError` with the server message and
data; `invalidResponse` is the `ToolExecutionError(tool, "Invalid response
from server")` of the else branch; `transportWrapped` is the
`ToolExecutionError` wrapping a `TransportError`; `uncaught` is a plain
Python exception escaping (the `error` field not being a dict makes
`error.get` raise `AttributeError`, which nothing catches). -/
inductive ToolOutcome where
  | result (r : Json)
  | invalidTool (tool : String) (data : Option Json)
  | toolExecutionFailed (tool : String) (message : Json) (data : Option Json)
  | invalidResponse (tool : String)
  | transportWrapped (tool : String) (e : SendErr)
  | uncaught

/-- The response classification of `call_tool`: `result` wins if present;
otherwise an `error` dict is split on `error.get("code", 0) == 1100`. -/
def classify_tool_response (tool : String) (response : Json) : ToolOutcome :=
  match response with
  | .obj fields =>
    match dictGet fields "result" with
    | some r => .result r
    | none =>
      match dictGet fields "error" with
      | some (.obj errFields) =>
        let code := (dictGet errFields "code").getD (.int 0)
        if pyEqInt code ErrorCodes.INVALID_TOOL then
          .invalidTool tool (dictGet errFields "data")
        else
          .toolExecutionFailed tool
            ((dictGet errFields "message").getD (.str "Unknown error"))
            (dictGet errFields "data")
      | some _ => .uncaught
      | none => .invalidResponse tool
  | _ => .uncaught

/-- Model of `StandardProtocolClient.call_tool(tool_name, params)`: one
`send_message` round trip with `{"name": ..., "parameters": ...}`, then
classification; a raised `TransportError` is re-wrapped as
`ToolExecutionError`.  The stored capabilities are never consulted. -/
def call_tool (c : ClientState) (tool_name : String)
    (params : List (String × Json)) : ToolOutcome × ClientState :=
  let sent := send_message c.transport "tools/call"
    [("name", .str tool_name), ("parameters", .obj params)] c.source
  let c' : ClientState := ⟨sent.2.1, sent.2.2, c.capabilities⟩
  match sent.1 with
  | .ok response => (classify_tool_response tool_name response, c')
  | .error e => (.transportWrapped tool_name e, c')

/-- The exception raised by `get_prompt` / `get_resource` (or `.result`).
Every server error envelope becomes the one generic `MCPProtocolError`
class, carrying `error.get("message", "Unknown error")`,
`error.get("code", 0)` and `error.get("data")`; the taxonomy of
`src/mcp/messages/exceptions.py` defines no prompt-not-found or
resource-not-found exception class.  `protocolError (.str "Invalid
response from server") (.int 0) none` is the else branch, and a
`TransportError` is re-wrapped with code 0. -/
inductive GetOutcome where
  | result (r : Json)
  | protocolError (message : Json) (code : Json) (data : Option Json)
  | transportWrapped (e : SendErr)
  | uncaught

/-- Shared response classification of `get_prompt` / `get_resource`. -/
def classify_get_response (response : Json) : GetOutcome :=
  match response with
  | .obj fields =>
    match dictGet fields "result" with
    | some r => .result r
    | none =>
      match dictGet fields "error" with
      | some (.obj errFields) =>
        .protocolError
          ((dictGet errFields "message").getD (.str "Unknown error"))
          ((dictGet errFields "code").getD (.int 0))
          (dictGet errFields "data")
      | some _ => .uncaught
      | none => .protocolError (.str "Invalid response from server") (.int 0) none
  | _ => .uncaught

/-- The request params built by `get_prompt` / `get_resource`: `{"name":
...}` plus `"parameters"` only when params were supplied and truthy. -/
def namedParams (name : String) (params : Option (List (String × Json))) :
    List (String × Json) :=
  match params with
  | some p => if truthy (.obj p) then [("name", .str name), ("parameters", .obj p)]
              else [("name", .str name)]
  | none => [("name", .str name)]

/-- Model of `StandardProtocolClient.get_prompt(prompt_name, params)`. -/
def get_prompt (c : ClientState) (prompt_name : String)
    (params : Option (List (String × Json))) : GetOutcome × ClientState :=
  let sent := send_message c.transport "prompts/get"
    (namedParams prompt_name params) c.source
  let c' : ClientState := ⟨sent.2.1, sent.2.2, c.capabilities⟩
  match sent.1 with
  | .ok response => (classify_get_response response, c')
  | .error e => (.transportWrapped e, c')

/-- Model of `StandardProtocolClient.get_resource(resource_name, params)`. -/
def get_resource (c : ClientState) (resource_name : String)
    (params : Option (List (String × Json))) : GetOutcome × ClientState :=
  let sent := send_message c.transport "resources/get"
    (namedParams resource_name params) c.source
  let c' : ClientState := ⟨sent.2.1, sent.2.2, c.capabilities⟩
  match sent.1 with
  | .ok response => (classify_get_response response, c')
  | .error e => (.transportWrapped e, c')

/-- Result of `StandardProtocolClient.shutdown()`: the boolean returned to
the caller, the client state afterwards, and whether
`transport.disconnect()` was actually invoked during the call. -/
structure ShutdownResult where
  returned : Bool
  state : ClientState
  disconnectCalled : Bool

/-- Model of `StandardProtocolClient.shutdown()`: sends the `shutdown` notification
and, when that round trip did not raise, calls `disconnect` and returns
`True`.  Any exception from the notification jumps to the `except` handler,
which logs and returns `False` — skipping the `disconnect` line.  The model
is a total function returning a boolean: the source catches every
`Exception`, so `shutdown` never raises. -/
def shutdown (c : ClientState) : ShutdownResult :=
  let sent := send_message c.transport "shutdown" [] c.source
  match sent.1 with
  | .ok _ =>
    let disc := disconnect sent.2.1
    ⟨true, ⟨disc.1, sent.2.2, c.capabilities⟩, true⟩
  | .error _ => ⟨false, ⟨sent.2.1, sent.2.2, c.capabilities⟩, false⟩

/-! ## Theorems

`firstViolation` and `requestRules` restate the spec's reading of
`validate_request` — an ordered rule list evaluated first-error-wins — to
be compared against the source embedding. -/

/-- Evaluate an ordered list of (check, message) rules, returning the
message of the first rule whose check fails and `none` when every check
passes. -/
def firstViolation (rules : List ((List (String × Json) → Bool) × String))
    (r : List (String × Json)) : Option String :=
  match rules with
  | [] => none
  | (check, msg) :: rest =>
    if check r then firstViolation rest r else some msg

/-- The spec's ordered structural rules for a request: version tag present
and equal to "2.0", then method present and a string, then params present
and a mapping, then id present and string-or-integer. -/
def requestRules : List ((List (String × Json) → Bool) × String) :=
  [ (fun r => dictHas r "jsonrpc",
     "Missing required field: \x27jsonrpc\x27"),
    (fun r => (dictGet r "jsonrpc").any (fun v => pyEqStr v "2.0"),
     "Invalid \x27jsonrpc\x27 value: must be \x272.0\x27"),
    (fun r => dictHas r "method",
     "Missing required field: \x27method\x27"),
    (fun r => (dictGet r "method").any isStr,
     "Invalid \x27method\x27 type: must be a string"),
    (fun r => dictHas r "params",
     "Missing required field: \x27params\x27"),
    (fun r => (dictGet r "params").any isDict,
     "Invalid \x27params\x27 type: must be an object"),
    (fun r => dictHas r "id",
     "Missing required field: \x27id\x27"),
    (fun r => (dictGet r "id").any isStrOrInt,
     "Invalid \x27id\x27 type: must be a string or number") ]

/-- The function `firstViolation` reports no violation exactly when every rule's check
passes. -/
theorem firstViolation_eq_none_iff
    (rules : List ((List (String × Json) → Bool) × String))
    (r : List (String × Json)) :
    firstViolation rules r = none ↔ ∀ p ∈ rules, p.1 r = true := by
  induction rules with
  | nil => simp [firstViolation]
  | cons hd tl ih =>
    obtain ⟨check, msg⟩ := hd
    by_cases h : check r <;> simp [firstViolation, h, ih]

/-- C5: `validate_request` evaluates the structural rules in the fixed
order version-tag, method, params, id; it returns the message of the first
violated rule only (it coincides with first-error-wins evaluation of the
ordered rule list), and it returns no error exactly when all rules hold. -/
theorem validate_request_first_error_wins :
    (∀ r, validate_request r = firstViolation requestRules r) ∧
    (∀ r, validate_request r = none ↔ ∀ p ∈ requestRules, p.1 r = true) := by
  have hmain : ∀ r, validate_request r = firstViolation requestRules r := by
    intro r
    cases h1 : dictGet r "jsonrpc" with
    | none => simp [validate_request, firstViolation, requestRules, dictHas, h1]
    | some ver =>
      cases h2 : pyEqStr ver "2.0" with
      | false =>
        simp [validate_request, firstViolation, requestRules, dictHas, h1, h2]
      | true =>
        cases h3 : dictGet r "method" with
        | none =>
          simp [validate_request, firstViolation, requestRules, dictHas,
            h1, h2, h3]
        | some m =>
          cases h4 : isStr m with
          | false =>
            simp [validate_request, firstViolation, requestRules, dictHas,
              h1, h2, h3, h4]
          | true =>
            cases h5 : dictGet r "params" with
            | none =>
              simp [validate_request, firstViolation, requestRules, dictHas,
                h1, h2, h3, h4, h5]
            | some p =>
              cases h6 : isDict p with
              | false =>
                simp [validate_request, firstViolation, requestRules, dictHas,
                  h1, h2, h3, h4, h5, h6]
              | true =>
                cases h7 : dictGet r "id" with
                | none =>
                  simp [validate_request, firstViolation, requestRules,
                    dictHas, h1, h2, h3, h4, h5, h6, h7]
                | some i =>
                  cases h8 : isStrOrInt i <;>
                    simp [validate_request, firstViolation, requestRules,
                      dictHas, h1, h2, h3, h4, h5, h6, h7, h8]
  exact ⟨hmain, fun r => by rw [hmain r]; exact firstViolation_eq_none_iff _ r⟩

/-- A response carrying both `result` and `error` never passes
`validate_response` (some check fails first or the both-fields check
fires). -/
theorem validate_response_isSome_of_both (r : List (String × Json))
    (hr : dictHas r "result" = true) (he : dictHas r "error" = true) :
    (validate_response r).isSome = true := by
  unfold validate_response
  (repeat' split) <;> simp_all

/-- A response carrying neither `result` nor `error` never passes
`validate_response`. -/
theorem validate_response_isSome_of_neither (r : List (String × Json))
    (hr : dictHas r "result" = false) (he : dictHas r "error" = false) :
    (validate_response r).isSome = true := by
  unfold validate_response
  (repeat' split) <;> simp_all

/-- C6: `validate_response` rejects any response mapping carrying both
`result` and `error`, rejects any carrying neither, and a response that
passes validation carries exactly one of the two. -/
theorem validate_response_exactly_one_of_result_error :
    ∀ r, (dictHas r "result" = true → dictHas r "error" = true →
            (validate_response r).isSome = true) ∧
         (dictHas r "result" = false → dictHas r "error" = false →
            (validate_response r).isSome = true) ∧
         (validate_response r = none →
            (dictHas r "result" = true ∧ dictHas r "error" = false) ∨
            (dictHas r "result" = false ∧ dictHas r "error" = true)) := by
  intro r
  refine ⟨validate_response_isSome_of_both r,
          validate_response_isSome_of_neither r, ?_⟩
  intro hnone
  by_cases hr : dictHas r "result" <;> by_cases he : dictHas r "error"
  · have := validate_response_isSome_of_both r hr he
    rw [hnone] at this
    exact absurd this (by simp)
  · exact Or.inl ⟨hr, by simpa using he⟩
  · exact Or.inr ⟨by simpa using hr, he⟩
  · have := validate_response_isSome_of_neither r
      (by simpa using hr) (by simpa using he)
    rw [hnone] at this
    exact absurd this (by simp)

/-- Witness for C6 at concrete responses: one with both fields, one with
neither, and one valid result-only response. -/
theorem validate_response_exactly_one_of_result_error_witness :
    (validate_response [("jsonrpc", Json.str "2.0"), ("id", Json.int 1),
        ("result", Json.null), ("error", Json.null)]).isSome = true ∧
    (validate_response [("jsonrpc", Json.str "2.0"),
        ("id", Json.int 1)]).isSome = true ∧
    ((dictHas [("jsonrpc", Json.str "2.0"), ("id", Json.int 1),
        ("result", Json.int 42)] "result" = true ∧
      dictHas [("jsonrpc", Json.str "2.0"), ("id", Json.int 1),
        ("result", Json.int 42)] "error" = false) ∨
     (dictHas [("jsonrpc", Json.str "2.0"), ("id", Json.int 1),
        ("result", Json.int 42)] "result" = false ∧
      dictHas [("jsonrpc", Json.str "2.0"), ("id", Json.int 1),
        ("result", Json.int 42)] "error" = true)) :=
  ⟨(validate_response_exactly_one_of_result_error _).1 (by decide) (by decide),
   (validate_response_exactly_one_of_result_error _).2.1 (by decide) (by decide),
   (validate_response_exactly_one_of_result_error _).2.2 (by decide)⟩

/-- The envelope `send_message` and `send_streaming_message` build — string
method, dict params, integer id — always passes the self-validation inside
`create_request`. -/
theorem create_request_ok (m : String) (p : List (String × Json)) (n : Int) :
    create_request (.str m) (.obj p) (.int n) =
      .ok (requestEnvelope (.str m) (.obj p) (.int n)) := by
  simp [create_request, requestEnvelope, validate_request, dictGet,
    pyEqStr, isStr, isDict, isStrOrInt, isIntLike]

/-- C7: `create_request` raises a construction error exactly when
`validate_request` rejects the envelope it builds, and for every valid
triple (string method, mapping params, string-or-integer id) construction
succeeds and validating the constructed envelope returns no error. -/
theorem create_request_self_validates :
    (∀ method params request_id,
        (∃ e, create_request method params request_id = .error e) ↔
        (∃ msg, validate_request
          (requestEnvelope method params request_id) = some msg)) ∧
    (∀ (m : String) (p : List (String × Json)) (i : Json),
        isStrOrInt i = true →
        create_request (.str m) (.obj p) i =
          .ok (requestEnvelope (.str m) (.obj p) i) ∧
        validate_request (requestEnvelope (.str m) (.obj p) i) = none) := by
  constructor
  · intro method params request_id
    unfold create_request
    cases hv : validate_request (requestEnvelope method params request_id) <;>
      simp [hv]
  · intro m p i hi
    have hval : validate_request (requestEnvelope (.str m) (.obj p) i) = none := by
      simp [requestEnvelope, validate_request, dictGet, pyEqStr, isStr,
        isDict, hi]
    exact ⟨by simp [create_request, hval], hval⟩

/-- Witness for C7 at the concrete triple ("ping", empty params, id 1). -/
theorem create_request_self_validates_witness :
    create_request (.str "ping") (.obj []) (.int 1) =
      .ok (requestEnvelope (.str "ping") (.obj []) (.int 1)) ∧
    validate_request
      (requestEnvelope (.str "ping") (.obj []) (.int 1)) = none :=
  (create_request_self_validates).2 "ping" [] (.int 1) (by decide)

/-- Every envelope the streaming loop yields is a JSON object whose `id`
field is present and equal (Python `==`) to the outstanding request id. -/
theorem streamLoop_yielded_matches (request_id : Nat) :
    ∀ lines j, j ∈ (streamLoop request_id lines).yielded →
      ∃ fields, j = .obj fields ∧ ∃ v, dictGet fields "id" = some v ∧
        pyEqInt v (request_id : Int) = true := by
  intro lines
  induction lines with
  | nil => simp [streamLoop]
  | cons l rest ih =>
    intro j hj
    cases l with
    | malformed raw => simp [streamLoop] at hj
    | parsed jl =>
      cases jl with
      | obj fields =>
        cases hid : dictGet fields "id" with
        | none =>
          simp only [streamLoop, hid] at hj
          exact ih j hj
        | some v =>
          by_cases hmatch : pyEqInt v (request_id : Int) = true
          · by_cases hterm : isTerminalResp fields = true
            · simp only [streamLoop, hid, hmatch, hterm, if_true,
                List.mem_singleton] at hj
              exact ⟨fields, hj, v, hid, hmatch⟩
            · simp only [streamLoop, hid, hmatch, if_true,
                Bool.not_eq_true] at hj hterm
              simp only [hterm, Bool.false_eq_true, if_false,
                List.mem_cons] at hj
              rcases hj with hj | hj
              · exact ⟨fields, hj, v, hid, hmatch⟩
              · exact ih j hj
          · simp only [streamLoop, hid, Bool.not_eq_true] at hj hmatch
            simp only [hmatch, Bool.false_eq_true, if_false] at hj
            exact ih j hj
      | null => simp [streamLoop] at hj
      | bool b => simp [streamLoop] at hj
      | int n => simp [streamLoop] at hj
      | str s => simp [streamLoop] at hj
      | arr elems => simp [streamLoop] at hj

/-- C8: on a source delivering an envelope with the outstanding id and
`partial=true` followed by one with that id and no `partial` field,
`send_streaming_message`'s loop yields exactly those two envelopes in
arrival order and stops after exactly two reads, whatever follows; an
envelope whose id does not match the outstanding id is skipped — it bumps
the read count but changes neither the yielded sequence nor the outcome;
and every yielded envelope carries the outstanding id. -/
theorem send_streaming_two_chunk_scenario :
    (∀ (f1 f2 : List (String × Json)) (rest : List Line),
        dictGet f1 "id" = some (.int 7) →
        dictGet f1 "partial" = some (.bool true) →
        dictGet f2 "id" = some (.int 7) →
        dictGet f2 "partial" = none →
        streamLoop 7 (.parsed (.obj f1) :: .parsed (.obj f2) :: rest) =
          ⟨[.obj f1, .obj f2], 2, .completed⟩) ∧
    (∀ (request_id : Nat) (fields : List (String × Json)) (rest : List Line),
        (∀ v, dictGet fields "id" = some v →
          pyEqInt v (request_id : Int) = false) →
        streamLoop request_id (.parsed (.obj fields) :: rest) =
          ⟨(streamLoop request_id rest).yielded,
           (streamLoop request_id rest).reads + 1,
           (streamLoop request_id rest).outcome⟩) ∧
    (∀ (request_id : Nat) (lines : List Line) (j : Json),
        j ∈ (streamLoop request_id lines).yielded →
        ∃ fields, j = .obj fields ∧ ∃ v, dictGet fields "id" = some v ∧
          pyEqInt v (request_id : Int) = true) := by
  refine ⟨?_, ?_, streamLoop_yielded_matches⟩
  · intro f1 f2 rest h1 h2 h3 h4
    simp [streamLoop, h1, h2, h3, h4, isTerminalResp, pyEqInt, truthy]
  · intro request_id fields rest h
    cases hid : dictGet fields "id" with
    | none => simp [streamLoop, hid]
    | some v => simp [streamLoop, hid, h v hid]

/-- Witness for C8: the two-chunk stream with a trailing extra line that is
never read, and one skipped mismatched envelope. -/
theorem send_streaming_two_chunk_scenario_witness :
    streamLoop 7
      [.parsed (.obj [("jsonrpc", Json.str "2.0"), ("result", Json.str "a"),
          ("id", Json.int 7), ("partial", Json.bool true)]),
       .parsed (.obj [("jsonrpc", Json.str "2.0"), ("result", Json.str "b"),
          ("id", Json.int 7)]),
       .malformed "never read"] =
      ⟨[Json.obj [("jsonrpc", Json.str "2.0"), ("result", Json.str "a"),
          ("id", Json.int 7), ("partial", Json.bool true)],
        Json.obj [("jsonrpc", Json.str "2.0"), ("result", Json.str "b"),
          ("id", Json.int 7)]], 2, .completed⟩ ∧
    streamLoop 9 [.parsed (.obj [("id", Json.int 5)])] =
      ⟨(streamLoop 9 ([] : List Line)).yielded,
       (streamLoop 9 ([] : List Line)).reads + 1,
       (streamLoop 9 ([] : List Line)).outcome⟩ :=
  ⟨(send_streaming_two_chunk_scenario).1 _ _ _ rfl rfl rfl rfl,
   (send_streaming_two_chunk_scenario).2.1 9 [("id", Json.int 5)] []
     (by intro v hv; cases hv; rfl)⟩

/-- Whether the streaming loop finished with a raised `TransportError`. -/
def StreamOutcome.isError : StreamOutcome → Bool
  | .completed => false
  | .transportError _ => true

/-- A source line that keeps the streaming loop reading: it decodes to a
JSON object and is either skipped (absent or mismatched id) or a
non-terminal matching envelope. -/
def keepsStreaming (request_id : Nat) : Line → Bool
  | .malformed _ => false
  | .parsed (.obj fields) =>
    match dictGet fields "id" with
    | none => true
    | some v => !(pyEqInt v (request_id : Int)) || !(isTerminalResp fields)
  | .parsed _ => false

/-- C1 counterexample: a source that delivers one matching `partial=true`
chunk and is then exhausted.  The loop completes normally (the source's
`break` on end of stream) instead of raising a `TransportError`, so
end-of-stream before a terminal envelope is not reported as a transport
failure. -/
theorem send_streaming_eof_counterexample :
    (streamLoop 1 [.parsed (.obj [("jsonrpc", Json.str "2.0"),
        ("result", Json.str "x"), ("id", Json.int 1),
        ("partial", Json.bool true)])]).outcome = .completed ∧
    (streamLoop 1 [.parsed (.obj [("jsonrpc", Json.str "2.0"),
        ("result", Json.str "x"), ("id", Json.int 1),
        ("partial", Json.bool true)])]).outcome.isError = false ∧
    (streamLoop 1 [.parsed (.obj [("jsonrpc", Json.str "2.0"),
        ("result", Json.str "x"), ("id", Json.int 1),
        ("partial", Json.bool true)])]).yielded =
      [Json.obj [("jsonrpc", Json.str "2.0"), ("result", Json.str "x"),
        ("id", Json.int 1), ("partial", Json.bool true)]] :=
  ⟨rfl, rfl, rfl⟩

/-- C1 (amended): when the source is exhausted before any terminal
matching envelope (and without a decode failure), the streaming loop
terminates normally — the generator completes after reading every line,
and no `TransportError` is raised. -/
theorem send_streaming_eof_completes (request_id : Nat) (lines : List Line)
    (h : ∀ l ∈ lines, keepsStreaming request_id l = true) :
    (streamLoop request_id lines).outcome = .completed ∧
    (streamLoop request_id lines).reads = lines.length := by
  revert h
  induction lines with
  | nil => intro h; exact ⟨rfl, rfl⟩
  | cons l rest ih =>
    intro h
    have hl := h l (List.mem_cons_self l rest)
    have ihr := ih (fun x hx => h x (List.mem_cons_of_mem l hx))
    cases l with
    | malformed raw => simp [keepsStreaming] at hl
    | parsed jl =>
      cases jl with
      | obj fields =>
        cases hid : dictGet fields "id" with
        | none => simp [streamLoop, hid, ihr.1, ihr.2]
        | some v =>
          by_cases hmatch : pyEqInt v (request_id : Int) = true
          · have hterm : isTerminalResp fields = false := by
              simp only [keepsStreaming, hid, hmatch, Bool.not_true,
                Bool.false_or, Bool.not_eq_true'] at hl
              exact hl
            simp [streamLoop, hid, hmatch, hterm, ihr.1, ihr.2]
          · simp only [Bool.not_eq_true] at hmatch
            simp [streamLoop, hid, hmatch, ihr.1, ihr.2]
      | null => simp [keepsStreaming] at hl
      | bool b => simp [keepsStreaming] at hl
      | int n => simp [keepsStreaming] at hl
      | str s => simp [keepsStreaming] at hl
      | arr elems => simp [keepsStreaming] at hl

/-- Witness for the amended C1: one matching `partial=true` chunk, then
end of stream. -/
theorem send_streaming_eof_completes_witness :
    (streamLoop 1 [.parsed (.obj [("jsonrpc", Json.str "2.0"),
        ("result", Json.str "x"), ("id", Json.int 1),
        ("partial", Json.bool true)])]).outcome = .completed ∧
    (streamLoop 1 [.parsed (.obj [("jsonrpc", Json.str "2.0"),
        ("result", Json.str "x"), ("id", Json.int 1),
        ("partial", Json.bool true)])]).reads = 1 :=
  send_streaming_eof_completes 1 _
    (by intro l hl; rw [List.mem_singleton] at hl; subst hl; rfl)

/-- C9: when the response line parses to a mapping whose `id` field is
absent or unequal to the id allocated for the outstanding request,
`send_message` raises the id-mismatch `TransportError` carrying the
expected id and the response's `id` value (the diagnostic context the
source interpolates into its message), and no response value is
returned. -/
theorem send_message_id_mismatch (st : TransportState) (method : String)
    (params : List (String × Json)) (fields : List (String × Json))
    (rest : List Line)
    (hconn : st.connected = true)
    (hmm : ∀ v, dictGet fields "id" = some v →
      pyEqInt v ((st.request_id + 1 : Nat) : Int) = false) :
    (send_message st method params (.parsed (.obj fields) :: rest)).1 =
      .error (.idMismatch (st.request_id + 1) (dictGet fields "id")) := by
  simp only [send_message, hconn, Bool.not_true, Bool.false_eq_true,
    if_false, create_request_ok]
  cases hid : dictGet fields "id" with
  | none => simp [readOneResponse, correlate, hid]
  | some v =>
    have h2 := hmm v hid
    rw [Nat.cast_add, Nat.cast_one] at h2
    simp [readOneResponse, correlate, hid, h2]

/-- Witness for C9: a fresh connected transport (next id 1) receiving a
response whose id is 99. -/
theorem send_message_id_mismatch_witness :
    (send_message ⟨true, 0, []⟩ "ping" []
        [.parsed (.obj [("jsonrpc", Json.str "2.0"), ("result", Json.null),
          ("id", Json.int 99)])]).1 =
      .error (.idMismatch 1
        (dictGet [("jsonrpc", Json.str "2.0"), ("result", Json.null),
          ("id", Json.int 99)] "id")) :=
  send_message_id_mismatch ⟨true, 0, []⟩ "ping" [] _ [] rfl
    (by intro v hv; cases hv; rfl)

/-- Replaying any event trace from a fresh transport keeps the wire equal
to the initial segment `[1, ..., request_id]` of the id sequence. -/
theorem runEvs_wire_inv (evs : List Ev) : ∀ st : TransportState,
    st.wire = List.range' 1 st.request_id →
    (runEvs st evs).wire = List.range' 1 (runEvs st evs).request_id := by
  induction evs with
  | nil => intro st h; exact h
  | cons e rest ih =>
    intro st h
    show (runEvs (stepEv st e) rest).wire = _
    apply ih
    cases e with
    | connectEv ok => cases ok <;> simp [stepEv, connect, h]
    | disconnectEv =>
      cases hc : st.connected <;> simp [stepEv, disconnect, hc, h]
    | sendEv m p src =>
      cases hc : st.connected with
      | false => simp [stepEv, send_message, hc, h]
      | true =>
        simp [stepEv, send_message, hc, create_request_ok, h,
          List.range'_concat, Nat.add_comm]
    | streamEv m p src =>
      cases hc : st.connected with
      | false => simp [stepEv, send_streaming_message, hc, h]
      | true =>
        simp [stepEv, send_streaming_message, hc, create_request_ok, h,
          List.range'_concat, Nat.add_comm]

/-- C10: the shared id counter is incremented exactly once per
`send_message` / `send_streaming_message` call before the envelope is
written, a call rejected by the connection check leaves the state (counter
and wire) untouched, and over any event trace on one fresh instance the
ids placed on the wire are exactly the strictly increasing sequence
1, 2, 3, ... with no id ever reused — an id is consumed even when the call
later fails, since the counter and wire updates precede the read. -/
theorem transport_id_counter_strictly_increasing :
    (∀ (st : TransportState) (m : String) (p : List (String × Json))
        (src : List Line), st.connected = true →
        (send_message st m p src).2.1.request_id = st.request_id + 1 ∧
        (send_message st m p src).2.1.wire = st.wire ++ [st.request_id + 1]) ∧
    (∀ (st : TransportState) (m : String) (p : List (String × Json))
        (src : List Line), st.connected = true →
        (send_streaming_message st m p src).2.request_id =
          st.request_id + 1 ∧
        (send_streaming_message st m p src).2.wire =
          st.wire ++ [st.request_id + 1]) ∧
    (∀ (st : TransportState) (m : String) (p : List (String × Json))
        (src : List Line), st.connected = false →
        (send_message st m p src).2.1 = st ∧
        (send_streaming_message st m p src).2 = st) ∧
    (∀ evs : List Ev,
        (runEvs TransportState.init evs).wire =
          List.range' 1 (runEvs TransportState.init evs).request_id ∧
        (runEvs TransportState.init evs).wire.Pairwise (· < ·) ∧
        (runEvs TransportState.init evs).wire.Nodup) := by
  refine ⟨?_, ?_, ?_, ?_⟩
  · intro st m p src hc
    constructor <;> simp [send_message, hc, create_request_ok]
  · intro st m p src hc
    constructor <;> simp [send_streaming_message, hc, create_request_ok]
  · intro st m p src hc
    constructor <;> simp [send_message, send_streaming_message, hc]
  · intro evs
    have h := runEvs_wire_inv evs TransportState.init rfl
    refine ⟨h, ?_, ?_⟩
    · rw [h]; exact List.pairwise_lt_range' ..
    · rw [h]; exact List.nodup_range' ..

/-- Witness for C10: one accepted send on a fresh connected transport, one
accepted streaming send, and one call rejected by the connection check. -/
theorem transport_id_counter_strictly_increasing_witness :
    ((send_message ⟨true, 0, []⟩ "ping" [] []).2.1.request_id = 0 + 1 ∧
     (send_message ⟨true, 0, []⟩ "ping" [] []).2.1.wire = [] ++ [0 + 1]) ∧
    ((send_streaming_message ⟨true, 3, [1, 2, 3]⟩ "tools/call" []
        []).2.request_id = 3 + 1 ∧
     (send_streaming_message ⟨true, 3, [1, 2, 3]⟩ "tools/call" []
        []).2.wire = [1, 2, 3] ++ [3 + 1]) ∧
    ((send_message ⟨false, 5, [1, 2, 3, 4, 5]⟩ "ping" [] []).2.1 =
        ⟨false, 5, [1, 2, 3, 4, 5]⟩ ∧
     (send_streaming_message ⟨false, 5, [1, 2, 3, 4, 5]⟩ "ping" [] []).2 =
        ⟨false, 5, [1, 2, 3, 4, 5]⟩) :=
  ⟨transport_id_counter_strictly_increasing.1 ⟨true, 0, []⟩ "ping" [] [] rfl,
   transport_id_counter_strictly_increasing.2.1 ⟨true, 3, [1, 2, 3]⟩
     "tools/call" [] [] rfl,
   transport_id_counter_strictly_increasing.2.2.1 ⟨false, 5, [1, 2, 3, 4, 5]⟩
     "ping" [] [] rfl⟩

/-- C2 counterexample: a client whose stored capabilities advertise no
tools at all still sends a `tools/call` request for the absent name
"ghost" — the wire grows by one request id and one response line is read —
and the outcome is whatever the server answered (here a result), not
`InvalidToolError`. -/
theorem call_tool_round_trip_counterexample :
    (call_tool ⟨⟨true, 0, []⟩,
        [.parsed (.obj [("jsonrpc", Json.str "2.0"),
          ("result", Json.obj []), ("id", Json.int 1)])],
        some (.obj [("tools", Json.arr [])])⟩ "ghost" []).1 =
      .result (Json.obj []) ∧
    (call_tool ⟨⟨true, 0, []⟩,
        [.parsed (.obj [("jsonrpc", Json.str "2.0"),
          ("result", Json.obj []), ("id", Json.int 1)])],
        some (.obj [("tools", Json.arr [])])⟩ "ghost" []).2.transport.wire =
      [1] ∧
    (call_tool ⟨⟨true, 0, []⟩,
        [.parsed (.obj [("jsonrpc", Json.str "2.0"),
          ("result", Json.obj []), ("id", Json.int 1)])],
        some (.obj [("tools", Json.arr [])])⟩ "ghost" []).2.source = [] :=
  ⟨rfl, rfl, rfl⟩

/-- C2 (amended): `call_tool` never consults the stored capabilities — its
outcome and transport effect are identical for any two capability values —
every call on a connected transport writes a request (one new id on the
wire), and `InvalidToolError` is raised exactly when the server's error
envelope carries code 1100 (`ErrorCodes.INVALID_TOOL`); other error
envelopes raise `ToolExecutionError`. -/
theorem call_tool_ignores_capabilities :
    (∀ (t : TransportState) (src : List Line) (caps caps' : Option Json)
        (name : String) (params : List (String × Json)),
        (call_tool ⟨t, src, caps⟩ name params).1 =
          (call_tool ⟨t, src, caps'⟩ name params).1 ∧
        (call_tool ⟨t, src, caps⟩ name params).2.transport =
          (call_tool ⟨t, src, caps'⟩ name params).2.transport ∧
        (call_tool ⟨t, src, caps⟩ name params).2.source =
          (call_tool ⟨t, src, caps'⟩ name params).2.source) ∧
    (∀ (t : TransportState) (src : List Line) (caps : Option Json)
        (name : String) (params : List (String × Json)),
        t.connected = true →
        (call_tool ⟨t, src, caps⟩ name params).2.transport.wire =
          t.wire ++ [t.request_id + 1]) ∧
    (∀ (tool : String) (fields errFields : List (String × Json)),
        dictGet fields "result" = none →
        dictGet fields "error" = some (.obj errFields) →
        (pyEqInt ((dictGet errFields "code").getD (.int 0))
            ErrorCodes.INVALID_TOOL = true →
          classify_tool_response tool (.obj fields) =
            .invalidTool tool (dictGet errFields "data")) ∧
        (pyEqInt ((dictGet errFields "code").getD (.int 0))
            ErrorCodes.INVALID_TOOL = false →
          classify_tool_response tool (.obj fields) =
            .toolExecutionFailed tool
              ((dictGet errFields "message").getD (.str "Unknown error"))
              (dictGet errFields "data"))) := by
  refine ⟨?_, ?_, ?_⟩
  · intro t src caps caps' name params
    cases hs : (send_message t "tools/call"
        [("name", Json.str name), ("parameters", Json.obj params)] src).1 <;>
      simp [call_tool, hs]
  · intro t src caps name params hc
    cases hr : readOneResponse (t.request_id + 1) src <;>
      simp [call_tool, send_message, hc, create_request_ok, hr]
  · intro tool fields errFields hres herr
    constructor <;> intro hcode <;>
      simp [classify_tool_response, hres, herr, hcode]

/-- Witness for C2's amended theorem: concrete transports and envelopes
for the round-trip and the 1100-classification parts. -/
theorem call_tool_ignores_capabilities_witness :
    (call_tool ⟨⟨true, 0, []⟩, [], none⟩ "echo" []).2.transport.wire =
      [] ++ [0 + 1] ∧
    classify_tool_response "echo"
      (.obj [("jsonrpc", Json.str "2.0"),
        ("error", Json.obj [("code", Json.int 1100)]),
        ("id", Json.int 1)]) =
      .invalidTool "echo"
        (dictGet [("code", Json.int 1100)] "data") ∧
    classify_tool_response "echo"
      (.obj [("jsonrpc", Json.str "2.0"),
        ("error", Json.obj [("code", Json.int 1101),
          ("message", Json.str "boom")]),
        ("id", Json.int 1)]) =
      .toolExecutionFailed "echo"
        ((dictGet [("code", Json.int 1101), ("message", Json.str "boom")]
          "message").getD (.str "Unknown error"))
        (dictGet [("code", Json.int 1101), ("message", Json.str "boom")]
          "data") :=
  ⟨(call_tool_ignores_capabilities).2.1 ⟨true, 0, []⟩ [] none "echo" [] rfl,
   ((call_tool_ignores_capabilities).2.2 "echo"
      [("jsonrpc", Json.str "2.0"),
       ("error", Json.obj [("code", Json.int 1100)]), ("id", Json.int 1)]
      [("code", Json.int 1100)] rfl rfl).1 rfl,
   ((call_tool_ignores_capabilities).2.2 "echo"
      [("jsonrpc", Json.str "2.0"),
       ("error", Json.obj [("code", Json.int 1101),
         ("message", Json.str "boom")]), ("id", Json.int 1)]
      [("code", Json.int 1101), ("message", Json.str "boom")]
      rfl rfl).2 rfl⟩

/-- C3 counterexample: a connected client whose source is already
exhausted.  The shutdown notification raises (`Connection closed by
server`), control jumps to the `except` handler, and `disconnect` is never
invoked — the transport is still connected afterwards and `shutdown`
returns `False`. -/
theorem shutdown_skips_disconnect_counterexample :
    (shutdown ⟨⟨true, 0, []⟩, [], none⟩).returned = false ∧
    (shutdown ⟨⟨true, 0, []⟩, [], none⟩).disconnectCalled = false ∧
    (shutdown ⟨⟨true, 0, []⟩, [], none⟩).state.transport.connected = true :=
  ⟨rfl, rfl, rfl⟩

/-- C3 (amended): `shutdown` never raises and reports success as a
boolean; it calls `disconnect` exactly when the shutdown notification
round trip succeeded (returning `True` and leaving the transport
disconnected), and when the notification raises it returns `False`
without attempting `disconnect`, leaving the connection flag as the
notification left it. -/
theorem shutdown_best_effort :
    ∀ c : ClientState,
      (shutdown c).disconnectCalled = (shutdown c).returned ∧
      ((shutdown c).returned = true ↔
        ∃ r, (send_message c.transport "shutdown" [] c.source).1 = .ok r) ∧
      (shutdown c).state.transport.connected =
        (!(shutdown c).returned && c.transport.connected) := by
  intro c
  have hconn : (send_message c.transport "shutdown" [] c.source).2.1.connected
      = c.transport.connected := by
    cases hc : c.transport.connected <;>
      simp [send_message, hc, create_request_ok]
  cases hs : (send_message c.transport "shutdown" [] c.source).1 with
  | error e => simp [shutdown, hs, hconn]
  | ok r =>
    refine ⟨by simp [shutdown, hs], by simp [shutdown, hs], ?_⟩
    simp only [shutdown, hs, disconnect]
    cases h2 : (send_message c.transport "shutdown" [] c.source).2.1.connected <;>
      simp [h2]

/-- C4 counterexample: a server error envelope with the prompt-not-found
code 1201 answering `get_prompt`, and one with the resource-not-found code
1301 answering `get_resource`.  Both are mapped to the one generic
`MCPProtocolError` carrying the numeric code — the error taxonomy of
`exceptions.py` defines no distinct not-found kind, so nothing different
from the generic protocol error is raised. -/
theorem get_not_found_generic_counterexample :
    (get_prompt ⟨⟨true, 0, []⟩,
        [.parsed (.obj [("jsonrpc", Json.str "2.0"),
          ("error", Json.obj [("code", Json.int 1201),
            ("message", Json.str "Prompt not found")]),
          ("id", Json.int 1)])], none⟩ "greet" none).1 =
      .protocolError (Json.str "Prompt not found") (Json.int 1201) none ∧
    (get_resource ⟨⟨true, 0, []⟩,
        [.parsed (.obj [("jsonrpc", Json.str "2.0"),
          ("error", Json.obj [("code", Json.int 1301),
            ("message", Json.str "Resource not found")]),
          ("id", Json.int 1)])], none⟩ "data" none).1 =
      .protocolError (Json.str "Resource not found") (Json.int 1301) none :=
  ⟨rfl, rfl⟩

/-- C4 (amended): every server error envelope answering `get_prompt` or
`get_resource` — whatever its code, 1201 (`ErrorCodes.PROMPT_NOT_FOUND`)
and 1301 (`ErrorCodes.RESOURCE_NOT_FOUND`) included — raises the one
generic `MCPProtocolError`, carrying `error.get("message")`,
`error.get("code")` and `error.get("data")`; no distinct not-found error
kind exists. -/
theorem get_prompt_resource_generic_error (c : ClientState) (name : String)
    (fields errFields : List (String × Json)) (rest : List Line)
    (hconn : c.transport.connected = true)
    (hsrc : c.source = .parsed (.obj fields) :: rest)
    (hid : dictGet fields "id" =
      some (.int ((c.transport.request_id + 1 : Nat) : Int)))
    (hres : dictGet fields "result" = none)
    (herr : dictGet fields "error" = some (.obj errFields)) :
    (get_prompt c name none).1 =
      .protocolError
        ((dictGet errFields "message").getD (.str "Unknown error"))
        ((dictGet errFields "code").getD (.int 0))
        (dictGet errFields "data") ∧
    (get_resource c name none).1 =
      .protocolError
        ((dictGet errFields "message").getD (.str "Unknown error"))
        ((dictGet errFields "code").getD (.int 0))
        (dictGet errFields "data") := by
  have hok : ∀ m : String,
      (send_message c.transport m (namedParams name none) c.source).1 =
        .ok (.obj fields) := by
    intro m
    simp [send_message, hconn, create_request_ok, hsrc, readOneResponse,
      correlate, hid, pyEqInt]
  have hclass : classify_get_response (.obj fields) =
      .protocolError
        ((dictGet errFields "message").getD (.str "Unknown error"))
        ((dictGet errFields "code").getD (.int 0))
        (dictGet errFields "data") := by
    simp [classify_get_response, hres, herr]
  constructor
  · cases hs : (send_message c.transport "prompts/get"
        (namedParams name none) c.source).1 with
    | ok r =>
      have := hok "prompts/get"
      rw [hs] at this
      cases this
      simp [get_prompt, hs, hclass]
    | error e =>
      have := hok "prompts/get"
      rw [hs] at this
      cases this
  · cases hs : (send_message c.transport "resources/get"
        (namedParams name none) c.source).1 with
    | ok r =>
      have := hok "resources/get"
      rw [hs] at this
      cases this
      simp [get_resource, hs, hclass]
    | error e =>
      have := hok "resources/get"
      rw [hs] at this
      cases this

/-- Witness for the amended C4 at the concrete 1201 envelope. -/
theorem get_prompt_resource_generic_error_witness :
    (get_prompt ⟨⟨true, 0, []⟩,
        [.parsed (.obj [("jsonrpc", Json.str "2.0"),
          ("error", Json.obj [("code", Json.int 1201),
            ("message", Json.str "Prompt not found")]),
          ("id", Json.int 1)])], none⟩ "greet" none).1 =
      .protocolError
        ((dictGet [("code", Json.int 1201),
            ("message", Json.str "Prompt not found")] "message").getD
          (.str "Unknown error"))
        ((dictGet [("code", Json.int 1201),
            ("message", Json.str "Prompt not found")] "code").getD (.int 0))
        (dictGet [("code", Json.int 1201),
            ("message", Json.str "Prompt not found")] "data") :=
  (get_prompt_resource_generic_error
    ⟨⟨true, 0, []⟩,
      [.parsed (.obj [("jsonrpc", Json.str "2.0"),
        ("error", Json.obj [("code", Json.int 1201),
          ("message", Json.str "Prompt not found")]),
        ("id", Json.int 1)])], none⟩ "greet"
    [("jsonrpc", Json.str "2.0"),
     ("error", Json.obj [("code", Json.int 1201),
       ("message", Json.str "Prompt not found")]),
     ("id", Json.int 1)]
    [("code", Json.int 1201), ("message", Json.str "Prompt not found")]
    [] rfl rfl rfl rfl rfl).1
